import Mathlib

/-!
Verification of a minimal HTTP/1.1 server (`src/main.py`) against its
natural-language specification.

The development is a shallow embedding of the program: byte strings are
`List Nat` (each element a byte value), Python `str` values are Lean
`String`s, fallible Python code (code that can raise) returns
`Except PyErr _`, and the filesystem seen by `pathlib.Path.exists` /
`open` is a parameter `fs : PyPath → Option Bytes` mapping an
OS-resolved path to the contents of the file stored there (`none` when
no such file exists).
-/

set_option maxRecDepth 10000

/-- Byte strings (Python `bytes`): lists of byte values. -/
abbrev Bytes := List Nat

/-- The Python exceptions that the translated code can raise. -/
inductive PyErr where
  | valueError
  | keyError
  | attributeError
  | unicodeDecodeError
deriving DecidableEq, Repr

/-- The byte sequence `b"\r\n"`. -/
def crlf : Bytes := [13, 10]

/-! ### UTF-8 encoding and decoding

`str.encode()` / `bytes.decode()` from the Python runtime. The strict
decoder rejects continuation errors, overlong forms, surrogates and
out-of-range code points, exactly as Python's default `errors="strict"`
mode does. -/

/-- UTF-8 encoding of a single code point (Python `str.encode` per character). -/
def utf8EncodeChar (n : Nat) : Bytes :=
  if n < 0x80 then [n]
  else if n < 0x800 then [0xC0 + n / 64, 0x80 + n % 64]
  else if n < 0x10000 then [0xE0 + n / 4096, 0x80 + (n / 64) % 64, 0x80 + n % 64]
  else [0xF0 + n / 262144, 0x80 + (n / 4096) % 64, 0x80 + (n / 64) % 64, 0x80 + n % 64]

/-- Python `str.encode()`: UTF-8 encoding of a string. -/
def pyEncode (s : String) : Bytes :=
  (s.data.map (fun c => utf8EncodeChar c.toNat)).flatten

/-- Strict UTF-8 decoding to a list of characters; `none` on any invalid
byte sequence (Python `bytes.decode()` raising `UnicodeDecodeError`). -/
def utf8DecodeStrict : Bytes → Option (List Char)
  | [] => some []
  | b :: rest =>
    if b < 0x80 then
      (utf8DecodeStrict rest).map (fun cs => Char.ofNat b :: cs)
    else if 0xC2 ≤ b ∧ b ≤ 0xDF then
      match rest with
      | c :: rest2 =>
        if 0x80 ≤ c ∧ c ≤ 0xBF then
          (utf8DecodeStrict rest2).map
            (fun cs => Char.ofNat ((b - 0xC0) * 64 + (c - 0x80)) :: cs)
        else none
      | [] => none
    else if b = 0xE0 then
      match rest with
      | c :: d :: rest3 =>
        if (0xA0 ≤ c ∧ c ≤ 0xBF) ∧ (0x80 ≤ d ∧ d ≤ 0xBF) then
          (utf8DecodeStrict rest3).map
            (fun cs => Char.ofNat ((b - 0xE0) * 4096 + (c - 0x80) * 64 + (d - 0x80)) :: cs)
        else none
      | _ => none
    else if (0xE1 ≤ b ∧ b ≤ 0xEC) ∨ (0xEE ≤ b ∧ b ≤ 0xEF) then
      match rest with
      | c :: d :: rest3 =>
        if (0x80 ≤ c ∧ c ≤ 0xBF) ∧ (0x80 ≤ d ∧ d ≤ 0xBF) then
          (utf8DecodeStrict rest3).map
            (fun cs => Char.ofNat ((b - 0xE0) * 4096 + (c - 0x80) * 64 + (d - 0x80)) :: cs)
        else none
      | _ => none
    else if b = 0xED then
      match rest with
      | c :: d :: rest3 =>
        if (0x80 ≤ c ∧ c ≤ 0x9F) ∧ (0x80 ≤ d ∧ d ≤ 0xBF) then
          (utf8DecodeStrict rest3).map
            (fun cs => Char.ofNat ((b - 0xE0) * 4096 + (c - 0x80) * 64 + (d - 0x80)) :: cs)
        else none
      | _ => none
    else if b = 0xF0 then
      match rest with
      | c :: d :: e :: rest4 =>
        if (0x90 ≤ c ∧ c ≤ 0xBF) ∧ (0x80 ≤ d ∧ d ≤ 0xBF) ∧ (0x80 ≤ e ∧ e ≤ 0xBF) then
          (utf8DecodeStrict rest4).map
            (fun cs => Char.ofNat ((b - 0xF0) * 262144 + (c - 0x80) * 4096 + (d - 0x80) * 64 + (e - 0x80)) :: cs)
        else none
      | _ => none
    else if 0xF1 ≤ b ∧ b ≤ 0xF3 then
      match rest with
      | c :: d :: e :: rest4 =>
        if (0x80 ≤ c ∧ c ≤ 0xBF) ∧ (0x80 ≤ d ∧ d ≤ 0xBF) ∧ (0x80 ≤ e ∧ e ≤ 0xBF) then
          (utf8DecodeStrict rest4).map
            (fun cs => Char.ofNat ((b - 0xF0) * 262144 + (c - 0x80) * 4096 + (d - 0x80) * 64 + (e - 0x80)) :: cs)
        else none
      | _ => none
    else if b = 0xF4 then
      match rest with
      | c :: d :: e :: rest4 =>
        if (0x80 ≤ c ∧ c ≤ 0x8F) ∧ (0x80 ≤ d ∧ d ≤ 0xBF) ∧ (0x80 ≤ e ∧ e ≤ 0xBF) then
          (utf8DecodeStrict rest4).map
            (fun cs => Char.ofNat ((b - 0xF0) * 262144 + (c - 0x80) * 4096 + (d - 0x80) * 64 + (e - 0x80)) :: cs)
        else none
      | _ => none
    else none

/-- Python `bytes.decode()`: strict UTF-8 decode, raising on failure. -/
def pyDecode (bs : Bytes) : Except PyErr String :=
  match utf8DecodeStrict bs with
  | some cs => .ok ⟨cs⟩
  | none => .error .unicodeDecodeError

/-- UTF-8 decoding with replacement (Python `errors="replace"`): on an
invalid byte, emit U+FFFD and resume after that byte. (CPython's
maximal-subpart rule may skip several bytes per replacement character;
the two agree on every input used in this development.) -/
def utf8DecodeReplaceAux : Nat → Bytes → List Char
  | 0, _ => []
  | _, [] => []
  | fuel + 1, b :: rest =>
    let utf8DecodeReplace := utf8DecodeReplaceAux fuel
    if b < 0x80 then Char.ofNat b :: utf8DecodeReplace rest
    else if 0xC2 ≤ b ∧ b ≤ 0xDF then
      match rest with
      | c :: rest2 =>
        if 0x80 ≤ c ∧ c ≤ 0xBF then
          Char.ofNat ((b - 0xC0) * 64 + (c - 0x80)) :: utf8DecodeReplace rest2
        else Char.ofNat 0xFFFD :: utf8DecodeReplace rest
      | [] => [Char.ofNat 0xFFFD]
    else if b = 0xE0 then
      match rest with
      | c :: d :: rest3 =>
        if (0xA0 ≤ c ∧ c ≤ 0xBF) ∧ (0x80 ≤ d ∧ d ≤ 0xBF) then
          Char.ofNat ((b - 0xE0) * 4096 + (c - 0x80) * 64 + (d - 0x80)) :: utf8DecodeReplace rest3
        else Char.ofNat 0xFFFD :: utf8DecodeReplace rest
      | _ => [Char.ofNat 0xFFFD]
    else if (0xE1 ≤ b ∧ b ≤ 0xEC) ∨ (0xEE ≤ b ∧ b ≤ 0xEF) then
      match rest with
      | c :: d :: rest3 =>
        if (0x80 ≤ c ∧ c ≤ 0xBF) ∧ (0x80 ≤ d ∧ d ≤ 0xBF) then
          Char.ofNat ((b - 0xE0) * 4096 + (c - 0x80) * 64 + (d - 0x80)) :: utf8DecodeReplace rest3
        else Char.ofNat 0xFFFD :: utf8DecodeReplace rest
      | _ => [Char.ofNat 0xFFFD]
    else if b = 0xED then
      match rest with
      | c :: d :: rest3 =>
        if (0x80 ≤ c ∧ c ≤ 0x9F) ∧ (0x80 ≤ d ∧ d ≤ 0xBF) then
          Char.ofNat ((b - 0xE0) * 4096 + (c - 0x80) * 64 + (d - 0x80)) :: utf8DecodeReplace rest3
        else Char.ofNat 0xFFFD :: utf8DecodeReplace rest
      | _ => [Char.ofNat 0xFFFD]
    else if 0xF0 ≤ b ∧ b ≤ 0xF4 then
      match rest with
      | c :: d :: e :: rest4 =>
        if ((if b = 0xF0 then 0x90 ≤ c ∧ c ≤ 0xBF
             else if b = 0xF4 then 0x80 ≤ c ∧ c ≤ 0x8F
             else 0x80 ≤ c ∧ c ≤ 0xBF) ∧ (0x80 ≤ d ∧ d ≤ 0xBF) ∧ (0x80 ≤ e ∧ e ≤ 0xBF)) then
          Char.ofNat ((b - 0xF0) * 262144 + (c - 0x80) * 4096 + (d - 0x80) * 64 + (e - 0x80)) :: utf8DecodeReplace rest4
        else Char.ofNat 0xFFFD :: utf8DecodeReplace rest
      | _ => [Char.ofNat 0xFFFD]
    else Char.ofNat 0xFFFD :: utf8DecodeReplace rest

/-- UTF-8 decoding with replacement, with the recursion fuel instantiated. -/
def utf8DecodeReplace (bs : Bytes) : List Char :=
  utf8DecodeReplaceAux (bs.length + 1) bs

/-! ### Python string and bytes helpers -/

/-- Auxiliary worker for `pySplit`; `fuel` bounds the recursion depth and
is instantiated with more than the length of the input. -/
def pySplitAux (sep : Bytes) : Nat → Bytes → Bytes → List Bytes
  | 0, acc, l => [acc.reverse ++ l]
  | fuel + 1, acc, l =>
    if sep.isPrefixOf l ∧ sep ≠ [] then
      acc.reverse :: pySplitAux sep fuel [] (l.drop sep.length)
    else
      match l with
      | [] => [acc.reverse]
      | b :: rest => pySplitAux sep fuel (b :: acc) rest

/-- Python `bytes.split(sep)` for a non-empty separator: splits on every
non-overlapping occurrence, keeping empty fields. -/
def pySplit (sep : Bytes) (bs : Bytes) : List Bytes :=
  pySplitAux sep (bs.length + 1) [] bs

/-- Auxiliary worker for `pySplitFirst`. -/
def pySplitFirstAux (sep : Bytes) : Nat → Bytes → Bytes → Option (Bytes × Bytes)
  | 0, _, _ => none
  | fuel + 1, acc, l =>
    if sep.isPrefixOf l ∧ sep ≠ [] then
      some (acc.reverse, l.drop sep.length)
    else
      match l with
      | [] => none
      | b :: rest => pySplitFirstAux sep fuel (b :: acc) rest

/-- Python `bytes.split(sep, 1)`, viewed through the two-name unpacking at
`main.py:248`: `some (before, after)` at the first occurrence of `sep`,
`none` when `sep` does not occur (in which case the unpacking raises
`ValueError`). -/
def pySplitFirst (sep : Bytes) (bs : Bytes) : Option (Bytes × Bytes) :=
  pySplitFirstAux sep (bs.length + 1) [] bs

/-- Python `str.strip(c)`: remove every leading and trailing occurrence of
the character `c` (both ends, any number of occurrences). -/
def pyStrip (s : String) (c : Char) : String :=
  ⟨((s.data.dropWhile (fun x => x == c)).reverse.dropWhile (fun x => x == c)).reverse⟩

/-- Value of a hexadecimal digit character, if it is one. -/
def hexDigit (c : Char) : Option Nat :=
  if '0' ≤ c ∧ c ≤ '9' then some (c.toNat - 48)
  else if 'a' ≤ c ∧ c ≤ 'f' then some (c.toNat - 87)
  else if 'A' ≤ c ∧ c ≤ 'F' then some (c.toNat - 55)
  else none

/-- Percent-decoding at the byte level: each valid `%XX` escape becomes the
byte `XX`; every other character contributes its UTF-8 bytes; an invalid
escape is kept literally. -/
def pctDecodeBytes : List Char → Bytes
  | [] => []
  | '%' :: h1 :: h2 :: rest =>
    match hexDigit h1, hexDigit h2 with
    | some a, some b => (a * 16 + b) :: pctDecodeBytes rest
    | _, _ => utf8EncodeChar 37 ++ pctDecodeBytes (h1 :: h2 :: rest)
  | c :: rest => utf8EncodeChar c.toNat ++ pctDecodeBytes rest

/-- Python `urllib.parse.unquote`: percent-decode, interpreting the decoded
bytes as UTF-8 with replacement on errors. -/
def pyUnquote (s : String) : String :=
  ⟨utf8DecodeReplace (pctDecodeBytes s.data)⟩

/-- Whitespace stripped by Python `int(str)`. -/
def isPySpace (c : Char) : Bool :=
  c == ' ' || c == '\t' || c == '\n' || c == '\r'

/-- Decimal value of a digit list. -/
def digitsVal (ds : List Char) : Nat :=
  ds.foldl (fun a c => a * 10 + (c.toNat - 48)) 0

/-- Python `int(str)`: optional surrounding whitespace, optional sign,
then decimal digits; anything else raises `ValueError`. (Underscore
separators and non-ASCII digits, which CPython also accepts, are not
modelled.) -/
def pyInt (s : String) : Except PyErr Int :=
  let cs := ((s.data.dropWhile isPySpace).reverse.dropWhile isPySpace).reverse
  match cs with
  | '-' :: ds =>
    if ds ≠ [] ∧ ds.all Char.isDigit then .ok (-(digitsVal ds : Int)) else .error .valueError
  | '+' :: ds =>
    if ds ≠ [] ∧ ds.all Char.isDigit then .ok (digitsVal ds) else .error .valueError
  | ds =>
    if ds ≠ [] ∧ ds.all Char.isDigit then .ok (digitsVal ds) else .error .valueError

/-- Python slicing `bs[:n]` for an `int` index `n` (negative `n` counts
from the end; out-of-range values clamp). -/
def pySlice (bs : Bytes) (n : Int) : Bytes :=
  if n < 0 then bs.take (bs.length - (-n).toNat) else bs.take n.toNat

/-- Assignment `d[k] = v` on an insertion-ordered dictionary represented as
an association list with unique keys: an existing key keeps its position
and gets the new value, a new key is appended. -/
def dictSet (d : List (String × String)) (k v : String) : List (String × String) :=
  match d with
  | [] => [(k, v)]
  | (k0, v0) :: rest => if k0 = k then (k0, v) :: rest else (k0, v0) :: dictSet rest k v

/-- Dictionary lookup `d.get(k)`. -/
def dictGet (d : List (String × String)) (k : String) : Option String :=
  match d with
  | [] => none
  | (k0, v0) :: rest => if k0 = k then some v0 else dictGet rest k

/-- Split a character list on every occurrence of `sep` (the semantics of
`str.split(sep)` for a one-character separator). -/
def splitOnChar (sep : Char) : List Char → List (List Char)
  | [] => [[]]
  | c :: rest =>
    let r := splitOnChar sep rest
    if c == sep then [] :: r
    else
      match r with
      | [] => [[c]]
      | h :: t => (c :: h) :: t

/-- ASCII lowercasing of one character. -/
def asciiLower (c : Char) : Char :=
  if 'A' ≤ c ∧ c ≤ 'Z' then Char.ofNat (c.toNat + 32) else c

/-- ASCII lowercasing of a string (`str.lower()` restricted to ASCII,
which is all `mimetypes` needs for its extension keys). -/
def strLower (s : String) : String :=
  ⟨s.data.map asciiLower⟩

/-- Python `os.path.splitext`: split off the extension of the last path
component; leading dots of the component do not start an extension. -/
def splitext (p : String) : String × String :=
  let cs := p.data
  let baseRev := cs.reverse.takeWhile (fun c => c != '/')
  let base := baseRev.reverse
  if (base.dropWhile (fun c => c == '.')).any (fun c => c == '.') then
    let extLen := (baseRev.takeWhile (fun c => c != '.')).length + 1
    (⟨cs.take (cs.length - extLen)⟩, ⟨cs.drop (cs.length - extLen)⟩)
  else (p, "")

/-- The fragment of Python's `mimetypes.types_map` relevant to this server
(all extensions the allow-list can let through, plus a few common ones). -/
def types_map : List (String × String) :=
  [(".html", "text/html"), (".htm", "text/html"), (".css", "text/css"),
   (".js", "text/javascript"), (".jpg", "image/jpeg"), (".jpeg", "image/jpeg"),
   (".png", "image/png"), (".gif", "image/gif"), (".txt", "text/plain")]

/-- Python `mimetypes.guess_type(filename)[0]`: look the (lowercased)
extension up in the types table. -/
def guess_type (filename : String) : Option String :=
  types_map.lookup (strLower (splitext filename).2)

/-! ### `pathlib` paths

`PyPath` models `pathlib.PurePosixPath`: an absolute-path flag and the
list of parts. Parsing a path string drops empty and `"."` segments but
keeps `".."` segments, exactly as `pathlib` does. -/

/-- A `pathlib` path: absolute flag plus parts. -/
structure PyPath where
  absolute : Bool
  parts : List String
deriving DecidableEq, Repr

/-- `pathlib.Path(s)`: parse a path string into parts. -/
def parsePath (s : String) : PyPath :=
  ⟨(match s.data with | '/' :: _ => true | _ => false),
   ((splitOnChar '/' s.data).map (fun l => (⟨l⟩ : String))).filter
     (fun seg => seg != "" && seg != ".")⟩

/-- `p / s` on paths: joining with an absolute path discards the left
operand, as in `pathlib`. -/
def PyPath.joinStr (p : PyPath) (s : String) : PyPath :=
  let q := parsePath s
  if q.absolute then q else ⟨p.absolute, p.parts ++ q.parts⟩

/-- `pathlib.PurePath.is_relative_to`: a purely lexical check — the other
path's parts must be a prefix of this path's parts; `".."` segments are
NOT resolved. -/
def PyPath.is_relative_to (p base : PyPath) : Bool :=
  p.absolute == base.absolute && base.parts.isPrefixOf p.parts

/-- OS-level path resolution as performed by `stat`/`open`: `".."` pops
the previous component (a `".."` at the start of a relative path is
kept, meaning a directory above the working directory; the parent of the
root is the root). Symbolic links are not modelled, and every intermediate
directory of the path is assumed to exist. -/
def osResolve (p : PyPath) : PyPath :=
  ⟨p.absolute,
   p.parts.foldl
     (fun stack seg =>
       if seg = ".." then
         if stack = [] then (if p.absolute then [] else [".."])
         else if stack.getLast? = some ".." then stack ++ [".."]
         else stack.dropLast
       else stack ++ [seg])
     []⟩

/-! ### HTTPRequest (`main.py:206-249`)

`HTTPRequest.__init__` initialises `method = None`, `uri = None`,
`http_version = "1.1"`, `headers = {}`, `body = b""`, then calls
`parse`. `parse` always assigns a (decoded) method; `uri` stays `None`
when the request line has fewer than two tokens, hence `uri` is an
`Option String`. The source stores `words[2]` — raw BYTES — into
`http_version` when a third token is present, so `http_version` is
`Option Bytes` with `none` standing for the default string `"1.1"`
(nothing in the program ever reads it back). -/

/-- A parsed HTTP request (the attributes of class `HTTPRequest`). -/
structure HTTPRequest where
  method : String
  uri : Option String
  http_version : Option Bytes
  headers : List (String × String)
  body : Bytes
deriving DecidableEq, Repr

/-- The header/body loop of `HTTPRequest.parse` (`main.py:243-249`):
scan lines after the request line; an empty line ends the headers and
the remaining lines, re-joined with CRLF, become the body; every header
line must contain `": "` (otherwise the two-name unpacking raises
`ValueError`); keys and values are decoded and assigned in order, later
duplicates overwriting earlier ones. When no empty line occurs the body
stays empty. -/
def parseHeaderLines : List Bytes → List (String × String) →
    Except PyErr (List (String × String) × Bytes)
  | [], hs => .ok (hs, [])
  | line :: rest, hs =>
    if line = [] then .ok (hs, List.intercalate crlf rest)
    else
      match pySplitFirst [58, 32] line with
      | none => .error .valueError
      | some (k, v) =>
        match pyDecode k with
        | .error e => .error e
        | .ok ks =>
          match pyDecode v with
          | .error e => .error e
          | .ok vs => parseHeaderLines rest (dictSet hs ks vs)

/-- Final stage of `HTTPRequest.parse`: run the header/body loop over the
lines after the request line and assemble the request value. -/
def parseFinish (lines : List Bytes) (method : String) (uri : Option String)
    (ver : Option Bytes) : Except PyErr HTTPRequest :=
  match parseHeaderLines (lines.drop 1) [] with
  | .error e => .error e
  | .ok (hs, b) => .ok ⟨method, uri, ver, hs, b⟩

/-- `HTTPRequest.parse` (`main.py:226-249`): split the buffer on CRLF,
split line 0 on single spaces, decode token 0 as the method, token 1
(when present) as the URI; token 2 (when present) is kept as the raw
version bytes; then parse headers and body. Any decode failure or
malformed header line raises. -/
def HTTPRequest.parse (data : Bytes) : Except PyErr HTTPRequest :=
  let lines := pySplit crlf data
  let words := pySplit [32] (lines.headD [])
  match pyDecode (words.headD []) with
  | .error e => .error e
  | .ok method =>
    match words[1]? with
    | none => parseFinish lines method none words[2]?
    | some w =>
      match pyDecode w with
      | .error e => .error e
      | .ok u => parseFinish lines method (some u) words[2]?

/-! ### HTTPServer (`main.py:65-204`) -/

namespace HTTPServer

/-- The class-level base headers dictionary (`main.py:69-72`). -/
def headers : List (String × String) :=
  [("Server", "Crude Server"), ("Content-Type", "text/html")]

/-- The status-code to reason-phrase table (`main.py:74-79`). -/
def status_codes : List (Nat × String) :=
  [(200, "OK"), (404, "Not Found"), (501, "Not Implemented"), (403, "Forbidden")]

/-- The exact-filename allow-list (`main.py:81`). -/
def allowed_files : List String := ["index.html", "hello.html", "home.html"]

/-- The extension allow-list (`main.py:82`). -/
def allowed_extensions : List String :=
  [".html", ".css", ".js", ".jpg", ".jpeg", ".png", ".gif"]

/-- The base serving directory `Path('Public')` (`main.py:83`). -/
def base_directory : PyPath := parsePath "Public"

/-- `response_line` (`main.py:184-189`): `"HTTP/1.1 %s %s\r\n"` encoded to
bytes; an unknown status code raises `KeyError` on the table lookup. -/
def response_line (status_code : Nat) : Except PyErr Bytes :=
  match status_codes.lookup status_code with
  | some reason =>
    .ok (pyEncode ("HTTP/1.1 " ++ toString status_code ++ " " ++ reason ++ "\r\n"))
  | none => .error .keyError

/-- `response_headers` (`main.py:191-204`): copy the base headers, apply
the extra headers as dictionary updates, then serialize each entry as
`"%s: %s\r\n"` in insertion order and encode. -/
def response_headers (extra_headers : List (String × String)) : Bytes :=
  let headers_copy := extra_headers.foldl (fun d kv => dictSet d kv.1 kv.2) headers
  pyEncode (headers_copy.foldl (fun acc kv => acc ++ (kv.1 ++ ": " ++ kv.2 ++ "\r\n")) "")

/-- `HTTP_501_handler` (`main.py:101-111`). -/
def HTTP_501_handler (_request : HTTPRequest) : Except PyErr Bytes :=
  match response_line 501 with
  | .error e => .error e
  | .ok rl => .ok (rl ++ response_headers [] ++ crlf ++ pyEncode "<h1>501 Not Implemented</h1>")

/-- `is_an_allowed_file` (`main.py:113-120`). -/
def is_an_allowed_file (filename : String) : Bool :=
  if allowed_files.contains filename then true
  else if allowed_extensions.contains (splitext filename).2 then true
  else false

/-- The filename computation of `handle_GET` (`main.py:124-128`):
`unquote(request.uri.strip('/'))` — strip every leading and trailing
slash FIRST, percent-decode SECOND — with `'home.html'` substituted when
the result is empty. -/
def requestedFilename (uri : String) : String :=
  let filename := pyUnquote (pyStrip uri '/')
  if filename = "" then "home.html" else filename

/-- `handle_GET` (`main.py:122-165`). `request.uri` being `None` (no
request-target) makes `.strip` raise `AttributeError`. The containment
check is the lexical `Path.is_relative_to`; the existence check and the
file read both go through the OS, i.e. the `fs` map at the OS-resolved
path. On a containment failure only the bare status line is returned. -/
def handle_GET (fs : PyPath → Option Bytes) (request : HTTPRequest) : Except PyErr Bytes :=
  match request.uri with
  | none => .error .attributeError
  | some uri =>
    let filename := requestedFilename uri
    let requested_path := base_directory.joinStr filename
    if !(requested_path.is_relative_to base_directory) then
      response_line 403
    else if is_an_allowed_file filename then
      match fs (osResolve requested_path) with
      | some response_body =>
        match response_line 200 with
        | .error e => .error e
        | .ok rl =>
          let content_type := (guess_type filename).getD "text/html"
          .ok (rl ++ response_headers
                [("Content-Type", content_type),
                 ("Content-Length", toString response_body.length)] ++ crlf ++ response_body)
      | none =>
        match response_line 404 with
        | .error e => .error e
        | .ok rl => .ok (rl ++ response_headers [] ++ crlf ++ pyEncode "<h1>404 Not Found</h1>")
    else
      match response_line 403 with
      | .error e => .error e
      | .ok rl => .ok (rl ++ response_headers [] ++ crlf ++ pyEncode "<h1>403 Forbidden</h1>")

/-- The Content-Length computation of `handle_POST` (`main.py:171-172`):
`headers.get('Content-Length', 0)` followed by `int(...)` — the integer
default `0` survives `int` unchanged, a present header value is parsed
and raises `ValueError` when non-numeric. -/
def postContentLength (hs : List (String × String)) : Except PyErr Int :=
  match dictGet hs "Content-Length" with
  | none => .ok 0
  | some v => pyInt v

/-- `handle_POST` (`main.py:168-182`): truncate the body to the declared
length, decode it as UTF-8 (raising on failure), and return it re-encoded
as the body of a 200 response with only the base headers. -/
def handle_POST (request : HTTPRequest) : Except PyErr Bytes :=
  match postContentLength request.headers with
  | .error e => .error e
  | .ok content_length =>
    match pyDecode (pySlice request.body content_length) with
    | .error e => .error e
    | .ok body =>
      match response_line 200 with
      | .error e => .error e
      | .ok rl => .ok (rl ++ response_headers [] ++ crlf ++ pyEncode body)

/-- `handle_request` (`main.py:85-99`): parse, then look up
`getattr(self, 'handle_' + method)` with the 501 handler as the
`AttributeError` fallback. The attributes of `HTTPServer` whose name
starts with `handle_` are exactly `handle_GET`, `handle_POST` and
`handle_request` (inherited and overridden), so the method string
`"request"` resolves to `handle_request` itself; calling it passes the
`HTTPRequest` object where bytes are expected and `parse` immediately
raises `AttributeError` on `data.split`. Every other unregistered
method name falls through to `HTTP_501_handler`. -/
def handle_request (fs : PyPath → Option Bytes) (data : Bytes) : Except PyErr Bytes :=
  match HTTPRequest.parse data with
  | .error e => .error e
  | .ok request =>
    if request.method = "GET" then handle_GET fs request
    else if request.method = "POST" then handle_POST request
    else if request.method = "request" then .error .attributeError
    else HTTP_501_handler request

end HTTPServer

/-! ### The per-connection step of `TCPServer.start` (`main.py:36-57`)

After `accept`, the server performs one `recv`, calls `handle_request`
on whatever bytes arrived (including `b""`), and then: if the returned
response is truthy (non-empty) it is sent back; otherwise the connection
is closed silently. An exception raised by `handle_request` propagates —
the `try/finally` closes the connection but has no `except` clause, so
the exception escapes the `while True` accept loop and terminates
`start`. -/

/-- Outcome of handling one connection whose single read returned `data`. -/
inductive ConnOutcome where
  | sent (response : Bytes)
  | closedSilently
  | crashed (e : PyErr)
deriving DecidableEq, Repr

/-- One iteration of the accept loop body over the bytes read. -/
def connectionStep (fs : PyPath → Option Bytes) (data : Bytes) : ConnOutcome :=
  match HTTPServer.handle_request fs data with
  | .error e => .crashed e
  | .ok response => if response = [] then .closedSilently else .sent response

/-- Formalisation of the SPEC's wording for the GET filename computation
(spec section 4.4 step 1): "Percent-decode the URI, strip a single
leading slash. If the result is empty, substitute the configured default
filename". The source (`HTTPServer.requestedFilename`) instead strips
every leading AND trailing slash first and percent-decodes second; the
C7 theorems compare the two. -/
def filenameSpec (uri : String) : String :=
  let d := pyUnquote uri
  let s := (match d.data with
            | '/' :: rest => (⟨rest⟩ : String)
            | _ => d)
  if s = "" then "home.html" else s

/-! ### Shared lemmas -/

/-- The successful branch of `handle_GET`: when the request carries a URI
whose computed filename passes the (lexical) containment check and the
allow-list, and the filesystem holds `contents` at the OS-resolved
candidate path, the handler returns 200 with a Content-Type guessed from
the extension (default `text/html`), a Content-Length equal to the byte
length of the contents, and the contents themselves as the body. -/
theorem handle_GET_200 (fs : PyPath → Option Bytes) (request : HTTPRequest)
    (u : String) (contents : Bytes)
    (hu : request.uri = some u)
    (hcont : (HTTPServer.base_directory.joinStr
        (HTTPServer.requestedFilename u)).is_relative_to HTTPServer.base_directory = true)
    (hallow : HTTPServer.is_an_allowed_file (HTTPServer.requestedFilename u) = true)
    (hfs : fs (osResolve (HTTPServer.base_directory.joinStr
        (HTTPServer.requestedFilename u))) = some contents) :
    HTTPServer.handle_GET fs request =
      .ok (pyEncode "HTTP/1.1 200 OK\r\n" ++
        HTTPServer.response_headers
          [("Content-Type", (guess_type (HTTPServer.requestedFilename u)).getD "text/html"),
           ("Content-Length", toString contents.length)] ++
        crlf ++ contents) := by
  unfold HTTPServer.handle_GET
  rw [hu]
  simp only [hcont, hallow, hfs, Bool.not_true, Bool.false_eq_true, if_false, if_true]
  rfl

/-! ### The claims -/

/-- C1: REFUTED — code bug. The claim states that any GET whose URI
contains relative traversal segments gets 403 because containment is
checked on the fully resolved candidate path. The source's containment
check is the purely lexical `Path.is_relative_to`, which leaves `".."`
unresolved: `GET /../../secret.html` passes both containment and the
allow-list (extension `.html`), and when a file exists at the OS-resolved
path `../secret.html` — outside the base directory, as the first conjunct
shows — the server serves it with status 200 instead of 403. -/
theorem claim_C1_traversal_escapes_base :
    (osResolve (HTTPServer.base_directory.joinStr
        (HTTPServer.requestedFilename "/../../secret.html"))).is_relative_to
      HTTPServer.base_directory = false ∧
    HTTPServer.handle_request
      (fun p => if p = (⟨false, ["..", "secret.html"]⟩ : PyPath) then some (pyEncode "TOPSECRET") else none)
      (pyEncode "GET /../../secret.html HTTP/1.1\r\n\r\n") =
      .ok (pyEncode "HTTP/1.1 200 OK\r\nServer: Crude Server\r\nContent-Type: text/html\r\nContent-Length: 9\r\n\r\nTOPSECRET") :=
  ⟨by decide, rfl⟩

/-- C2 counterexample: the method string `"request"` is outside
{GET, POST} yet does not route to the default 501 handler — `getattr`
resolves it to `handle_request` itself, which raises `AttributeError`;
the second conjunct shows what the 501 handler would have returned. -/
theorem claim_C2_counterexample_request_method :
    HTTPServer.handle_request (fun _ => none) (pyEncode "request /x HTTP/1.1\r\n\r\n") =
      .error .attributeError ∧
    HTTPServer.HTTP_501_handler ⟨"request", some "/x", some (pyEncode "HTTP/1.1"), [], []⟩ =
      .ok (pyEncode "HTTP/1.1 501 Not Implemented\r\nServer: Crude Server\r\nContent-Type: text/html\r\n\r\n<h1>501 Not Implemented</h1>") :=
  ⟨rfl, rfl⟩

/-- C2 (amended): every parsed request whose method is none of `"GET"`,
`"POST"` and `"request"` is routed to the default handler, which returns
the fixed 501 response; the method string `"request"` instead reaches
`handle_request` itself and crashes. -/
theorem claim_C2_amended_unregistered_methods_get_501
    (fs : PyPath → Option Bytes) (data : Bytes) (req : HTTPRequest)
    (hp : HTTPRequest.parse data = .ok req)
    (h1 : req.method ≠ "GET") (h2 : req.method ≠ "POST") (h3 : req.method ≠ "request") :
    HTTPServer.handle_request fs data =
      .ok (pyEncode "HTTP/1.1 501 Not Implemented\r\nServer: Crude Server\r\nContent-Type: text/html\r\n\r\n<h1>501 Not Implemented</h1>") := by
  unfold HTTPServer.handle_request
  simp only [hp]
  rw [if_neg h1, if_neg h2, if_neg h3]
  rfl

/-- C2 witness: a PUT request gets the fixed 501 response. -/
theorem claim_C2_witness :
    HTTPServer.handle_request (fun _ => none) (pyEncode "PUT /x HTTP/1.1\r\n\r\n") =
      .ok (pyEncode "HTTP/1.1 501 Not Implemented\r\nServer: Crude Server\r\nContent-Type: text/html\r\n\r\n<h1>501 Not Implemented</h1>") :=
  claim_C2_amended_unregistered_methods_get_501 (fun _ => none) _
    ⟨"PUT", some "/x", some (pyEncode "HTTP/1.1"), [], []⟩ rfl
    (by decide) (by decide) (by decide)

/-- C3: REFUTED — code bug. Request handling is not total: a header line
without `": "` makes the two-name unpacking in `HTTPRequest.parse` raise
`ValueError`, the exception escapes `handle_request` (there is no
`except` clause on the connection loop), and the accept loop terminates. -/
theorem claim_C3_header_parse_crash (fs : PyPath → Option Bytes) :
    connectionStep fs (pyEncode "GET / HTTP/1.1\r\nNoSeparatorHere\r\n\r\n") =
      .crashed .valueError :=
  rfl

/-- C4: REFUTED — code bug. On an empty read `handle_request(b"")` is
still called; it parses an empty method, falls back to the 501 handler,
and the non-empty 501 response is written back to the client instead of
the connection being closed silently. -/
theorem claim_C4_empty_read_sends_501 (fs : PyPath → Option Bytes) :
    connectionStep fs [] =
      .sent (pyEncode "HTTP/1.1 501 Not Implemented\r\nServer: Crude Server\r\nContent-Type: text/html\r\n\r\n<h1>501 Not Implemented</h1>") :=
  rfl

/-- C5: CONFIRMED. A GET request naming an existing, allow-listed file
(one whose computed filename passes containment and the allow-list and
which exists at the resolved candidate path with contents `contents`)
returns status 200, a Content-Length header equal to the byte length of
the contents, the contents byte-for-byte as the body, and a Content-Type
determined from the extension with default `"text/html"`. -/
theorem claim_C5_get_success_response (fs : PyPath → Option Bytes) (request : HTTPRequest)
    (u : String) (contents : Bytes)
    (hu : request.uri = some u)
    (hcont : (HTTPServer.base_directory.joinStr
        (HTTPServer.requestedFilename u)).is_relative_to HTTPServer.base_directory = true)
    (hallow : HTTPServer.is_an_allowed_file (HTTPServer.requestedFilename u) = true)
    (hfs : fs (osResolve (HTTPServer.base_directory.joinStr
        (HTTPServer.requestedFilename u))) = some contents) :
    HTTPServer.handle_GET fs request =
      .ok (pyEncode "HTTP/1.1 200 OK\r\n" ++
        HTTPServer.response_headers
          [("Content-Type", (guess_type (HTTPServer.requestedFilename u)).getD "text/html"),
           ("Content-Length", toString contents.length)] ++
        crlf ++ contents) :=
  handle_GET_200 fs request u contents hu hcont hallow hfs

/-- C5 witness: GET /hello.html with a two-byte file present. -/
theorem claim_C5_witness :
    HTTPServer.handle_GET
        (fun p => if p = (⟨false, ["Public", "hello.html"]⟩ : PyPath) then some (pyEncode "Hi") else none)
        ⟨"GET", some "/hello.html", none, [], []⟩ =
      .ok (pyEncode "HTTP/1.1 200 OK\r\n" ++
        HTTPServer.response_headers
          [("Content-Type", (guess_type (HTTPServer.requestedFilename "/hello.html")).getD "text/html"),
           ("Content-Length", toString (pyEncode "Hi").length)] ++
        crlf ++ pyEncode "Hi") :=
  claim_C5_get_success_response _ _ "/hello.html" (pyEncode "Hi") rfl (by decide) (by decide) (by decide)

/-- C6 counterexample: two POST requests on which the handler does not
return 200 — a non-numeric `Content-Length` header makes `int(...)`
raise `ValueError`, and a body byte that is not valid UTF-8 makes
`.decode()` raise `UnicodeDecodeError`. -/
theorem claim_C6_counterexample_post_crashes :
    HTTPServer.handle_request (fun _ => none)
        (pyEncode "POST / HTTP/1.1\r\nContent-Length: x\r\n\r\nhi") = .error .valueError ∧
    HTTPServer.handle_POST ⟨"POST", some "/", none, [("Content-Length", "1")], [255]⟩ =
      .error .unicodeDecodeError :=
  ⟨rfl, rfl⟩

/-- C6 (amended): for every POST request whose `Content-Length` value
parses as an integer `n` (with integer `0` as the default when the
header is absent) and whose body truncated to `n` bytes decodes as
UTF-8 text `s`, the handler returns a 200 response whose headers are
only the base headers — no Content-Length — and whose body is the
re-encoding of `s`; when the header is non-numeric or the truncated
body is not valid UTF-8 the handler raises instead of returning 200. -/
theorem claim_C6_amended_post_200 (req : HTTPRequest) (n : Int) (s : String)
    (hn : HTTPServer.postContentLength req.headers = .ok n)
    (hd : pyDecode (pySlice req.body n) = .ok s) :
    HTTPServer.handle_POST req =
      .ok (pyEncode "HTTP/1.1 200 OK\r\nServer: Crude Server\r\nContent-Type: text/html\r\n\r\n" ++
        pyEncode s) := by
  unfold HTTPServer.handle_POST
  simp only [hn, hd]
  rfl

/-- C6 witness: POST with `Content-Length: 5` and the ten-byte body
`HelloWorld` returns 200 with body `Hello` — the first five bytes. -/
theorem claim_C6_witness :
    HTTPServer.handle_POST ⟨"POST", some "/", none, [("Content-Length", "5")], pyEncode "HelloWorld"⟩ =
      .ok (pyEncode "HTTP/1.1 200 OK\r\nServer: Crude Server\r\nContent-Type: text/html\r\n\r\n" ++
        pyEncode "Hello") :=
  claim_C6_amended_post_200 _ 5 "Hello" rfl rfl

/-- C7 counterexample: the claim's computation (percent-decode, THEN
strip one leading slash — `filenameSpec`) disagrees with the source's
computation (strip all slashes, THEN percent-decode —
`requestedFilename`) on the URI `"%2Fx"`: the source obtains the
absolute-looking name `"/x"` while the spec's order obtains `"x"`. -/
theorem claim_C7_counterexample_decode_order :
    HTTPServer.requestedFilename "%2Fx" = "/x" ∧ filenameSpec "%2Fx" = "x" ∧
    HTTPServer.requestedFilename "%2Fx" ≠ filenameSpec "%2Fx" :=
  ⟨rfl, rfl, by decide⟩

/-- C7 (amended): the served filename is computed by FIRST stripping
every leading and trailing slash from the URI and THEN percent-decoding,
with `"home.html"` substituted when the result is empty; consequently a
root request serves the default document. -/
theorem claim_C7_amended_strip_then_decode (fs : PyPath → Option Bytes)
    (u : String) (contents : Bytes)
    (hroot : fs ⟨false, ["Public", "home.html"]⟩ = some contents) :
    HTTPServer.requestedFilename u =
      (if pyUnquote (pyStrip u '/') = "" then "home.html" else pyUnquote (pyStrip u '/')) ∧
    HTTPServer.handle_GET fs ⟨"GET", some "/", none, [], []⟩ =
      .ok (pyEncode "HTTP/1.1 200 OK\r\n" ++
        HTTPServer.response_headers
          [("Content-Type", "text/html"), ("Content-Length", toString contents.length)] ++
        crlf ++ contents) := by
  refine ⟨rfl, ?_⟩
  exact handle_GET_200 fs _ "/" contents rfl (by decide) (by decide) hroot

/-- C7 witness: with a home page present, a root request serves it. -/
theorem claim_C7_witness :
    HTTPServer.requestedFilename "" =
      (if pyUnquote (pyStrip "" '/') = "" then "home.html" else pyUnquote (pyStrip "" '/')) ∧
    HTTPServer.handle_GET
        (fun p => if p = (⟨false, ["Public", "home.html"]⟩ : PyPath) then some (pyEncode "<h1>Home</h1>") else none)
        ⟨"GET", some "/", none, [], []⟩ =
      .ok (pyEncode "HTTP/1.1 200 OK\r\n" ++
        HTTPServer.response_headers
          [("Content-Type", "text/html"),
           ("Content-Length", toString (pyEncode "<h1>Home</h1>").length)] ++
        crlf ++ pyEncode "<h1>Home</h1>") :=
  claim_C7_amended_strip_then_decode _ "" (pyEncode "<h1>Home</h1>") (by decide)

/-- C8 counterexample: parsing a buffer whose request line has a single
token leaves the `uri` field as `None` (here `none`), not the empty
string the claim promises. -/
theorem claim_C8_counterexample_uri_is_none :
    HTTPRequest.parse (pyEncode "GET") = .ok ⟨"GET", none, none, [], []⟩ ∧
    (none : Option String) ≠ some "" :=
  ⟨rfl, by decide⟩

/-- C8 (amended): for every input buffer whose request line contains at
most one token, the parsed request's `uri` field is `None` (absent), the
initial value set in `__init__` — not the empty string. -/
theorem claim_C8_amended_uri_defaults_none (data : Bytes) (req : HTTPRequest)
    (hw : (pySplit [32] ((pySplit crlf data).headD [])).length ≤ 1)
    (hp : HTTPRequest.parse data = .ok req) : req.uri = none := by
  have h1 : (pySplit [32] ((pySplit crlf data).headD []))[1]? = none := by
    rw [List.getElem?_eq_none_iff]
    exact hw
  simp only [HTTPRequest.parse, h1] at hp
  cases hm : pyDecode ((pySplit [32] ((pySplit crlf data).headD [])).headD []) with
  | error e => rw [hm] at hp; cases hp
  | ok m =>
    rw [hm] at hp
    unfold parseFinish at hp
    cases hh : parseHeaderLines ((pySplit crlf data).drop 1) [] with
    | error e => rw [hh] at hp; cases hp
    | ok pr =>
      obtain ⟨hs, b⟩ := pr
      rw [hh] at hp
      cases hp
      rfl

/-- C8 witness: a buffer containing only the bytes `GET`. -/
theorem claim_C8_witness :
    ({ method := "GET", uri := none, http_version := none, headers := [],
       body := [] } : HTTPRequest).uri = none :=
  claim_C8_amended_uri_defaults_none (pyEncode "GET") _ (by decide) rfl

/-- C9: CONFIRMED. For each of the four known status codes the serialized
response line equals exactly `"HTTP/1.1 <code> <reason>\r\n"` with the
reason phrase from the fixed table. -/
theorem claim_C9_response_lines :
    HTTPServer.response_line 200 = .ok (pyEncode "HTTP/1.1 200 OK\r\n") ∧
    HTTPServer.response_line 403 = .ok (pyEncode "HTTP/1.1 403 Forbidden\r\n") ∧
    HTTPServer.response_line 404 = .ok (pyEncode "HTTP/1.1 404 Not Found\r\n") ∧
    HTTPServer.response_line 501 = .ok (pyEncode "HTTP/1.1 501 Not Implemented\r\n") :=
  ⟨rfl, rfl, rfl, rfl⟩

/-- C10: CONFIRMED. When the containment check fails the GET handler
returns ONLY the bare status line `"HTTP/1.1 403 Forbidden\r\n"` — no
headers, no blank line, no body — whereas the allow-list 403 outcome is a
full response with the base headers, a blank line and an HTML body. -/
theorem claim_C10_containment_403_bare (fs : PyPath → Option Bytes) (u : String) :
    ((HTTPServer.base_directory.joinStr (HTTPServer.requestedFilename u)).is_relative_to
        HTTPServer.base_directory = false →
      HTTPServer.handle_GET fs ⟨"GET", some u, none, [], []⟩ =
        .ok (pyEncode "HTTP/1.1 403 Forbidden\r\n")) ∧
    ((HTTPServer.base_directory.joinStr (HTTPServer.requestedFilename u)).is_relative_to
        HTTPServer.base_directory = true →
      HTTPServer.is_an_allowed_file (HTTPServer.requestedFilename u) = false →
      HTTPServer.handle_GET fs ⟨"GET", some u, none, [], []⟩ =
        .ok (pyEncode "HTTP/1.1 403 Forbidden\r\nServer: Crude Server\r\nContent-Type: text/html\r\n\r\n<h1>403 Forbidden</h1>")) := by
  constructor
  · intro hcont
    unfold HTTPServer.handle_GET
    simp only [hcont, Bool.not_false, if_true]
    rfl
  · intro hcont hallow
    unfold HTTPServer.handle_GET
    simp only [hcont, hallow, Bool.not_true, Bool.false_eq_true, if_false]
    rfl

/-- C10 witness: `GET %2Fetc%2Fpasswd` decodes to an absolute path and
fails containment, yielding the bare status line; `GET /x.exe` passes
containment but fails the allow-list, yielding the full 403 response. -/
theorem claim_C10_witness :
    HTTPServer.handle_GET (fun _ => none) ⟨"GET", some "%2Fetc%2Fpasswd", none, [], []⟩ =
      .ok (pyEncode "HTTP/1.1 403 Forbidden\r\n") ∧
    HTTPServer.handle_GET (fun _ => none) ⟨"GET", some "/x.exe", none, [], []⟩ =
      .ok (pyEncode "HTTP/1.1 403 Forbidden\r\nServer: Crude Server\r\nContent-Type: text/html\r\n\r\n<h1>403 Forbidden</h1>") :=
  ⟨(claim_C10_containment_403_bare (fun _ => none) "%2Fetc%2Fpasswd").1 (by decide),
   (claim_C10_containment_403_bare (fun _ => none) "/x.exe").2 (by decide) (by decide)⟩
